import Mathlib

/-!
Verification of the guest-to-host dispatch and thread-resume core of the
Vita3K emulator excerpt (src/emulator/host/src/host.cpp), as a shallow
embedding in Lean 4.  The embedding follows the C++ source: state is
modelled explicitly, and the side effects of each function (lock
acquisitions and releases, condition-variable notifications, program
counter writes, native-function invocations, trace logging) are recorded
in an explicit event trace returned alongside the new state.
-/

namespace Vita3K

/-- Numeric export identifier (uint32_t nid in the source). -/
abbrev Nid := Nat

/-- Guest memory address (Address in the source). -/
abbrev Address := Nat

/-- Guest thread identifier (SceUID in the source). -/
abbrev SceUID := Nat

/-- The tri-state thread status from the spec data model: to_do is one of
run, wait, stop (kernel/thread/thread_state.h is not under src; the values
used by the excerpt are wait and run, with stop as the terminal state). -/
inductive ThreadToDo where
  | run : ThreadToDo
  | wait : ThreadToDo
  | stop : ThreadToDo
deriving DecidableEq, Repr

/-- Mutexes that appear in the excerpt: the kernel registry mutex
(kernel.mutex) and each per-thread mutex (thread->mutex). -/
inductive LockId where
  | kernelMutex : LockId
  | threadMutex : SceUID → LockId
deriving DecidableEq, Repr

/-- Observable events emitted by the embedded functions. -/
inductive Event where
  | lock : LockId → Event
  | unlock : LockId → Event
  | exportLookup : Nid → Event
  | setToDo : SceUID → ThreadToDo → Event
  | notifyThread : SceUID → Event
  | notifyDisplay : Event
  | logTrace : Nid → SceUID → Event
  | callFn : Nid → SceUID → Event
  | writePC : SceUID → Address → Event
  | condWait : SceUID → Event
deriving DecidableEq, Repr

/-- CPU execution context owned by each thread: its program counter plus
the remaining register file, which the dispatch code never touches. -/
structure CPUState where
  pc : Address
  regs : List Nat
deriving DecidableEq, Repr

/-- write_pc from cpu/functions.h as used at host.cpp:263: overwrite the
program counter of a CPU context, leaving everything else intact. -/
def write_pc (cpu : CPUState) (pc : Address) : CPUState :=
  { cpu with pc := pc }

/-- Per-thread record (ThreadState in the source): an owned CPU context
and the to_do status.  The mutex and condition variable are not data; the
lock and notify operations on them appear in the event trace. -/
structure ThreadState where
  cpu : CPUState
  to_do : ThreadToDo
deriving DecidableEq, Repr

/-- Kernel state: the export table (kernel.export_nids, an id-to-address
map) and the thread registry (kernel.threads, keyed by SceUID). -/
structure KernelState where
  export_nids : List (Nid × Address)
  threads : List (SceUID × ThreadState)
deriving DecidableEq, Repr

/-- Display state: the abort flag and the imgui_render toggle used by
handle_events (display.condvar is modelled through notifyDisplay events). -/
structure DisplayState where
  abort : Bool
  imgui_render : Bool
deriving DecidableEq, Repr

/-- Gxm state: the display queue abort flag set on shutdown. -/
structure GxmState where
  display_queue_aborted : Bool
deriving DecidableEq, Repr

/-- Host state: the slice of HostState the excerpt reads or writes. -/
structure HostState where
  kernel : KernelState
  display : DisplayState
  gxm : GxmState
deriving DecidableEq, Repr

/-- A native (HLE) import function: invoked with host state, CPU state and
the calling thread id, returning the updated host and CPU state.  In the
source, ImportFn is a std::function; a default-constructed (empty) one is
modelled as the absence of an entry in the registry list. -/
def ImportFn := HostState → CPUState → SceUID → HostState × CPUState

/-- Key lookup in an association list, modelling std::map::find (the maps
in the source have unique keys; lookup returns the first match). -/
def lookupKey {β : Type} (k : Nat) : List (Nat × β) → Option β
  | [] => none
  | (k', v) :: rest => if k = k' then some v else lookupKey k rest

/-- Replace the record of thread tid in a thread registry. -/
def setThread : List (SceUID × ThreadState) → SceUID → ThreadState →
    List (SceUID × ThreadState)
  | [], _, _ => []
  | p :: rest, tid, th =>
    (if p.1 = tid then (tid, th) else p) :: setThread rest tid th

/-- host.cpp:66.  The compile-time switch guarding the import-call trace
logging; false in the source as shipped. -/
def LOG_IMPORT_CALLS : Bool := false

/-- host.cpp:231-238.  Resolve a function imported from a loaded module:
look the nid up in kernel.export_nids and return 0 when the lookup misses
(the doc comment in the source reads: Resolved address, 0 if not found).
No lock is acquired. -/
def resolve_export (kernel : KernelState) (nid : Nid) : Address :=
  match lookupKey nid kernel.export_nids with
  | none => 0
  | some a => a

/-- host.cpp:72-82.  Resolve an nid to its compiled-in native function.
The switch body is generated from nids/nids.h, which is not under src; the
compiled-in list is therefore a parameter (an association list), and the
default-constructed ImportFn returned on fall-through is modelled as
none. -/
def resolve_import (registry : List (Nid × ImportFn)) (nid : Nid) :
    Option ImportFn :=
  lookupKey nid registry

/-- host.cpp:240-264, parameterised by the logging switch it reads
(LOG_IMPORT_CALLS) and by the compiled-in registry.  First resolve the nid
through the export table; when that yields a nonzero address take the LLE
path (lock_and_find the thread under the kernel mutex, lock the thread
mutex, write its program counter); otherwise take the HLE path (optionally
log, resolve through the registry, and invoke the function when present).
Returns none exactly when the LLE path dereferences a thread id absent
from the registry (a null-pointer crash in the source). -/
def call_importWith (logImportCalls : Bool)
    (registry : List (Nid × ImportFn)) (host : HostState) (cpu : CPUState)
    (nid : Nid) (thread_id : SceUID) :
    Option (HostState × CPUState × List Event) :=
  let export_pc := resolve_export host.kernel nid
  let logEvents : List Event :=
    if logImportCalls then [Event.logTrace nid thread_id] else []
  if export_pc = 0 then
    match resolve_import registry nid with
    | some fn =>
      let r := fn host cpu thread_id
      some (r.1, r.2,
        Event.exportLookup nid :: logEvents ++ [Event.callFn nid thread_id])
    | none =>
      some (host, cpu, Event.exportLookup nid :: logEvents)
  else
    match lookupKey thread_id host.kernel.threads with
    | none => none
    | some th =>
      let th' := { th with cpu := write_pc th.cpu export_pc }
      some ({ host with
              kernel := { host.kernel with
                          threads := setThread host.kernel.threads thread_id th' } },
            cpu,
            Event.exportLookup nid :: logEvents ++
              [Event.lock LockId.kernelMutex, Event.unlock LockId.kernelMutex,
               Event.lock (LockId.threadMutex thread_id),
               Event.writePC thread_id export_pc,
               Event.unlock (LockId.threadMutex thread_id)])

/-- call_import as compiled: call_importWith at the shipped value of
LOG_IMPORT_CALLS. -/
def call_import (registry : List (Nid × ImportFn)) (host : HostState)
    (cpu : CPUState) (nid : Nid) (thread_id : SceUID) :
    Option (HostState × CPUState × List Event) :=
  call_importWith LOG_IMPORT_CALLS registry host cpu nid thread_id

/-- host.cpp:105-112.  The ResumeAudioThread lambda: lock_and_find the
thread under the kernel mutex, acquire that record's own mutex, set to_do
to run when it is wait, and notify_all the condition variable — the
notification is unconditional in the source, outside the if.  Returns none
when the thread id is absent (the source would dereference null). -/
def resume_thread (kernel : KernelState) (thread_id : SceUID) :
    Option (KernelState × List Event) :=
  match lookupKey thread_id kernel.threads with
  | none => none
  | some th =>
    let pre : List Event :=
      [Event.lock LockId.kernelMutex, Event.unlock LockId.kernelMutex,
       Event.lock (LockId.threadMutex thread_id)]
    if th.to_do = ThreadToDo.wait then
      let th' := { th with to_do := ThreadToDo.run }
      some ({ kernel with threads := setThread kernel.threads thread_id th' },
        pre ++ [Event.setToDo thread_id ThreadToDo.run,
                Event.notifyThread thread_id,
                Event.unlock (LockId.threadMutex thread_id)])
    else
      some (kernel,
        pre ++ [Event.notifyThread thread_id,
                Event.unlock (LockId.threadMutex thread_id)])

/-- Modelled from the spec: stop_all_threads is declared in
kernel/functions.h, whose definition is not under src.  The spec requires
the shutdown path to iterate the full thread registry and unconditionally
wake every thread currently parked in wait; modelled as: for every thread
in the registry, acquire its lock, set to_do to stop, notify its condition
variable, release its lock. -/
def stop_all_threads (kernel : KernelState) : KernelState × List Event :=
  ({ kernel with
     threads := kernel.threads.map (fun p => (p.1, { p.2 with to_do := ThreadToDo.stop })) },
   kernel.threads.flatMap (fun p =>
     [Event.lock (LockId.threadMutex p.1),
      Event.setToDo p.1 ThreadToDo.stop,
      Event.notifyThread p.1,
      Event.unlock (LockId.threadMutex p.1)]))

/-- The SDL events the excerpt distinguishes: SDL_QUIT, the SDLK_g keydown
that toggles the GUI, and everything else. -/
inductive SDLEvent where
  | quit : SDLEvent
  | keydownG : SDLEvent
  | other : SDLEvent
deriving DecidableEq, Repr

/-- host.cpp:190-223.  Drain the pending SDL events in order.  On
SDL_QUIT: stop all threads, abort the gxm display queue, set the display
abort flag, notify_all the display condition variable, and return false
immediately.  On the SDLK_g keydown: toggle the imgui_render flag (the
window resize calls are host-UI effects outside the modelled state).
Return true once the queue is drained. -/
def handle_events (host : HostState) (events : List SDLEvent) :
    Bool × HostState × List Event :=
  match events with
  | [] => (true, host, [])
  | SDLEvent.quit :: _ =>
    let r := stop_all_threads host.kernel
    (false,
     { host with
       kernel := r.1,
       gxm := { display_queue_aborted := true },
       display := { host.display with abort := true } },
     r.2 ++ [Event.notifyDisplay])
  | SDLEvent.keydownG :: rest =>
    let host' :=
      { host with
        display := { host.display with
                     imgui_render := !host.display.imgui_render } }
    let r := handle_events host' rest
    (r.1, r.2.1, r.2.2)
  | SDLEvent.other :: rest => handle_events host rest

/-- The multiset of locks held after a trace prefix: lock pushes, unlock
removes one occurrence. -/
def locksHeld (tr : List Event) : List LockId :=
  tr.foldl (fun held e =>
    match e with
    | Event.lock l => l :: held
    | Event.unlock l => held.erase l
    | _ => held) []

/-- The locks held at the moment the event at index i of the trace fires. -/
def heldAt (tr : List Event) (i : Nat) : List LockId :=
  locksHeld (tr.take i)

/-! ### Concrete fixtures used by witnesses and counterexamples -/

/-- A concrete CPU context. -/
def sampleCPU : CPUState := { pc := 100, regs := [1, 2] }

/-- A concrete running thread record. -/
def sampleThread : ThreadState := { cpu := sampleCPU, to_do := ThreadToDo.run }

/-- A concrete native function: bump the program counter by 4. -/
def incFn : ImportFn := fun h c _ => (h, { c with pc := c.pc + 4 })

/-- A host with the export record (0x1234 -> 0x81000000) from the spec
scenario and one registered thread with id 7. -/
def hostWithExport : HostState :=
  { kernel := { export_nids := [(0x1234, 0x81000000)],
                threads := [(7, sampleThread)] },
    display := { abort := false, imgui_render := false },
    gxm := { display_queue_aborted := false } }

/-- A host with an empty export table and one registered thread. -/
def hostNoExport : HostState :=
  { kernel := { export_nids := [], threads := [(7, sampleThread)] },
    display := { abort := false, imgui_render := false },
    gxm := { display_queue_aborted := false } }

/-- A host whose export table maps id 0x1234 to address 0. -/
def hostZeroExport : HostState :=
  { kernel := { export_nids := [(0x1234, 0)], threads := [(7, sampleThread)] },
    display := { abort := false, imgui_render := false },
    gxm := { display_queue_aborted := false } }

/-- A kernel holding one thread, id 1, whose to_do is run. -/
def runKernel : KernelState :=
  { export_nids := [],
    threads := [(1, { cpu := { pc := 0, regs := [] },
                      to_do := ThreadToDo.run })] }

/-- A host with one waiting thread (id 1) and one running thread (id 2). -/
def twoThreadHost : HostState :=
  { kernel := { export_nids := [],
                threads :=
                  [(1, { cpu := { pc := 0, regs := [] },
                         to_do := ThreadToDo.wait }),
                   (2, { cpu := { pc := 4, regs := [] },
                         to_do := ThreadToDo.run })] },
    display := { abort := false, imgui_render := false },
    gxm := { display_queue_aborted := false } }

/-! ### Helper lemmas -/

theorem lookupKey_setThread_self (ts : List (SceUID × ThreadState))
    (tid : SceUID) (th : ThreadState) :
    lookupKey tid (setThread ts tid th) =
      (lookupKey tid ts).map (fun _ => th) := by
  induction ts with
  | nil => rfl
  | cons p rest ih =>
    obtain ⟨k, v⟩ := p
    simp only [setThread]
    by_cases hk : k = tid
    · rw [if_pos hk]
      subst hk
      simp [lookupKey]
    · rw [if_neg hk]
      have hk2 : ¬ tid = k := fun h => hk h.symm
      simp [lookupKey, hk2, ih]

theorem lookupKey_setThread_ne (ts : List (SceUID × ThreadState))
    (tid t : SceUID) (th : ThreadState) (hne : t ≠ tid) :
    lookupKey t (setThread ts tid th) = lookupKey t ts := by
  induction ts with
  | nil => rfl
  | cons p rest ih =>
    obtain ⟨k, v⟩ := p
    simp only [setThread]
    by_cases hk : k = tid
    · rw [if_pos hk]
      subst hk
      simp [lookupKey, hne, ih]
    · rw [if_neg hk]
      by_cases ht : t = k
      · subst ht
        simp [lookupKey]
      · simp [lookupKey, ht, ih]

theorem resolve_export_of_lookup (kernel : KernelState) (nid : Nid)
    (A : Address) (h : lookupKey nid kernel.export_nids = some A) :
    resolve_export kernel nid = A := by
  simp [resolve_export, h]

theorem resolve_export_of_miss (kernel : KernelState) (nid : Nid)
    (h : lookupKey nid kernel.export_nids = none) :
    resolve_export kernel nid = 0 := by
  simp [resolve_export, h]

/-- Characterisation of the LLE branch of call_importWith: when the export
table resolves the nid to a nonzero address and the thread is registered,
the result is exactly the input state with that thread's program counter
rewritten, together with the lock/write trace. -/
theorem call_importWith_LLE (log : Bool) (registry : List (Nid × ImportFn))
    (host : HostState) (cpu : CPUState) (nid : Nid) (tid : SceUID)
    (A : Address) (th : ThreadState)
    (hA : resolve_export host.kernel nid = A) (h0 : A ≠ 0)
    (hth : lookupKey tid host.kernel.threads = some th) :
    call_importWith log registry host cpu nid tid =
      some ({ host with
              kernel := { host.kernel with
                threads := setThread host.kernel.threads tid
                  { th with cpu := write_pc th.cpu A } } },
            cpu,
            Event.exportLookup nid ::
              (if log then [Event.logTrace nid tid] else []) ++
              [Event.lock LockId.kernelMutex, Event.unlock LockId.kernelMutex,
               Event.lock (LockId.threadMutex tid),
               Event.writePC tid A,
               Event.unlock (LockId.threadMutex tid)]) := by
  simp only [call_importWith, hA, if_neg h0, hth]

/-- Characterisation of the HLE branch with a registry hit: the native
function is applied and its output returned, with a callFn event. -/
theorem call_importWith_HLE_hit (log : Bool)
    (registry : List (Nid × ImportFn)) (host : HostState) (cpu : CPUState)
    (nid : Nid) (tid : SceUID) (fn : ImportFn)
    (hA : resolve_export host.kernel nid = 0)
    (hfn : resolve_import registry nid = some fn) :
    call_importWith log registry host cpu nid tid =
      some ((fn host cpu tid).1, (fn host cpu tid).2,
        Event.exportLookup nid ::
          (if log then [Event.logTrace nid tid] else []) ++
          [Event.callFn nid tid]) := by
  simp [call_importWith, hA, hfn]

/-- Characterisation of the double-miss branch: the state is returned
untouched, with only the lookup (and, when enabled, log) events. -/
theorem call_importWith_HLE_miss (log : Bool)
    (registry : List (Nid × ImportFn)) (host : HostState) (cpu : CPUState)
    (nid : Nid) (tid : SceUID)
    (hA : resolve_export host.kernel nid = 0)
    (hfn : resolve_import registry nid = none) :
    call_importWith log registry host cpu nid tid =
      some (host, cpu,
        Event.exportLookup nid ::
          (if log then [Event.logTrace nid tid] else [])) := by
  simp [call_importWith, hA, hfn]

/-! ### Claims -/

/-- C1: for every id the export table resolves to a nonzero address,
call_import takes the LLE path — it rewrites the calling thread's program
counter to the resolved address and returns without invoking any native
function and without consulting the NID registry (the result is the same
for every registry); only when the export lookup misses does it consult
the registry and invoke the associated native function synchronously. -/
theorem C1_export_hit_prefers_LLE (log : Bool)
    (registry : List (Nid × ImportFn)) (host : HostState) (cpu : CPUState)
    (nid : Nid) (tid : SceUID) :
    (∀ A th, lookupKey nid host.kernel.export_nids = some A → A ≠ 0 →
      lookupKey tid host.kernel.threads = some th →
      ∃ h2 tr,
        call_importWith log registry host cpu nid tid = some (h2, cpu, tr) ∧
        lookupKey tid h2.kernel.threads =
          some { th with cpu := write_pc th.cpu A } ∧
        (∀ n t, Event.callFn n t ∉ tr) ∧
        (∀ registry2, call_importWith log registry2 host cpu nid tid =
          call_importWith log registry host cpu nid tid)) ∧
    (∀ fn, resolve_export host.kernel nid = 0 →
      resolve_import registry nid = some fn →
      call_importWith log registry host cpu nid tid =
        some ((fn host cpu tid).1, (fn host cpu tid).2,
          Event.exportLookup nid ::
            (if log then [Event.logTrace nid tid] else []) ++
            [Event.callFn nid tid])) := by
  constructor
  · intro A th hA h0 hth
    have hre := resolve_export_of_lookup host.kernel nid A hA
    refine ⟨_, _,
      call_importWith_LLE log registry host cpu nid tid A th hre h0 hth,
      ?_, ?_, ?_⟩
    · simp [lookupKey_setThread_self, hth]
    · intro n t
      cases log <;> simp
    · intro registry2
      rw [call_importWith_LLE log registry2 host cpu nid tid A th hre h0 hth,
        call_importWith_LLE log registry host cpu nid tid A th hre h0 hth]
  · intro fn hA hfn
    exact call_importWith_HLE_hit log registry host cpu nid tid fn hA hfn

/-- Witness for C1 at the spec scenario: export record
(0x1234 -> 0x81000000), thread 7, empty registry. -/
theorem C1_export_hit_prefers_LLE_witness :
    ∃ h2 tr,
      call_importWith false [] hostWithExport sampleCPU 0x1234 7 =
        some (h2, sampleCPU, tr) ∧
      lookupKey 7 h2.kernel.threads =
        some { sampleThread with cpu := write_pc sampleThread.cpu 0x81000000 } ∧
      (∀ n t, Event.callFn n t ∉ tr) ∧
      (∀ registry2, call_importWith false registry2 hostWithExport sampleCPU 0x1234 7 =
        call_importWith false [] hostWithExport sampleCPU 0x1234 7) :=
  (C1_export_hit_prefers_LLE false [] hostWithExport sampleCPU 0x1234 7).1
    0x81000000 sampleThread rfl (by decide) rfl

/-- C2 counterexample: the claim quantifies over every registered address,
but for an id present only in the export table and registered to address
0 the program counter is not set to that address — resolve_export's 0
sentinel routes the call to the HLE / no-op path (host.cpp:243), so the
state comes back untouched and thread 7's program counter stays 100. -/
theorem C2_zero_export_counterexample :
    lookupKey 0x1234 hostZeroExport.kernel.export_nids = some 0 ∧
    resolve_import [] 0x1234 = none ∧
    call_import [] hostZeroExport sampleCPU 0x1234 7 =
      some (hostZeroExport, sampleCPU, [Event.exportLookup 0x1234]) ∧
    (lookupKey 7 hostZeroExport.kernel.threads).map (fun th => th.cpu.pc) =
      some 100 ∧
    (100 : Address) ≠ 0 := by
  refine ⟨rfl, rfl, rfl, rfl, by decide⟩

/-- C2 amended: for an id present only in the export table, registered to
a nonzero address A, call_import sets the calling thread's program counter
to exactly A and changes nothing else: the CPU argument, the export table,
the display and gxm state, every other thread record, and the rest of that
thread's record (registers, to_do) are returned unchanged, and no native
function is invoked and nothing is logged. -/
theorem C2_export_only_frame (registry : List (Nid × ImportFn))
    (host : HostState) (cpu : CPUState) (nid : Nid) (tid : SceUID)
    (A : Address) (th : ThreadState)
    (hA : lookupKey nid host.kernel.export_nids = some A) (h0 : A ≠ 0)
    (_hreg : resolve_import registry nid = none)
    (hth : lookupKey tid host.kernel.threads = some th) :
    ∃ h2 tr,
      call_import registry host cpu nid tid = some (h2, cpu, tr) ∧
      lookupKey tid h2.kernel.threads =
        some { cpu := { pc := A, regs := th.cpu.regs }, to_do := th.to_do } ∧
      (∀ t, t ≠ tid →
        lookupKey t h2.kernel.threads = lookupKey t host.kernel.threads) ∧
      h2.kernel.export_nids = host.kernel.export_nids ∧
      h2.display = host.display ∧
      h2.gxm = host.gxm ∧
      (∀ n t, Event.callFn n t ∉ tr) ∧
      (∀ n t, Event.logTrace n t ∉ tr) ∧
      (∀ t v, Event.setToDo t v ∉ tr) := by
  have hre := resolve_export_of_lookup host.kernel nid A hA
  have hcall : call_import registry host cpu nid tid =
      call_importWith false registry host cpu nid tid := rfl
  have hlle := call_importWith_LLE false registry host cpu nid tid A th hre h0 hth
  refine ⟨_, _, hcall.trans hlle, ?_, ?_, rfl, rfl, rfl, ?_, ?_, ?_⟩
  · simp [lookupKey_setThread_self, hth, write_pc]
  · intro t hne
    exact lookupKey_setThread_ne host.kernel.threads tid t _ hne
  · intro n t
    simp
  · intro n t
    simp
  · intro t v
    simp

/-- Witness for C2 at the spec scenario: export record
(0x1234 -> 0x81000000), thread 7. -/
theorem C2_export_only_frame_witness :
    ∃ h2 tr,
      call_import [] hostWithExport sampleCPU 0x1234 7 =
        some (h2, sampleCPU, tr) ∧
      lookupKey 7 h2.kernel.threads =
        some { cpu := { pc := 0x81000000, regs := sampleThread.cpu.regs },
               to_do := sampleThread.to_do } ∧
      (∀ t, t ≠ 7 →
        lookupKey t h2.kernel.threads = lookupKey t hostWithExport.kernel.threads) ∧
      h2.kernel.export_nids = hostWithExport.kernel.export_nids ∧
      h2.display = hostWithExport.display ∧
      h2.gxm = hostWithExport.gxm ∧
      (∀ n t, Event.callFn n t ∉ tr) ∧
      (∀ n t, Event.logTrace n t ∉ tr) ∧
      (∀ t v, Event.setToDo t v ∉ tr) :=
  C2_export_only_frame [] hostWithExport sampleCPU 0x1234 7
    0x81000000 sampleThread rfl (by decide) rfl rfl

/-- C3: for an id absent from the export table but present in the NID
registry, call_import returns exactly the output of the associated native
function applied to (host state, CPU state, thread id) — so the invocation
completes before call_import returns — and the trace records exactly one
callFn event for that id and thread. -/
theorem C3_registry_only_invokes_once (registry : List (Nid × ImportFn))
    (host : HostState) (cpu : CPUState) (nid : Nid) (tid : SceUID)
    (fn : ImportFn)
    (hA : lookupKey nid host.kernel.export_nids = none)
    (hfn : resolve_import registry nid = some fn) :
    call_import registry host cpu nid tid =
      some ((fn host cpu tid).1, (fn host cpu tid).2,
        [Event.exportLookup nid, Event.callFn nid tid]) ∧
    List.count (Event.callFn nid tid)
      [Event.exportLookup nid, Event.callFn nid tid] = 1 := by
  have hre := resolve_export_of_miss host.kernel nid hA
  constructor
  · have hcall : call_import registry host cpu nid tid =
        call_importWith false registry host cpu nid tid := rfl
    rw [hcall,
      call_importWith_HLE_hit false registry host cpu nid tid fn hre hfn]
    simp
  · simp [List.count_cons]

/-- Witness for C3: empty export table, registry mapping 0xDEAD0001 to
incFn, thread 7. -/
theorem C3_registry_only_invokes_once_witness :
    call_import [(0xDEAD0001, incFn)] hostNoExport sampleCPU 0xDEAD0001 7 =
      some ((incFn hostNoExport sampleCPU 7).1,
        (incFn hostNoExport sampleCPU 7).2,
        [Event.exportLookup 0xDEAD0001, Event.callFn 0xDEAD0001 7]) ∧
    List.count (Event.callFn 0xDEAD0001 7)
      [Event.exportLookup 0xDEAD0001, Event.callFn 0xDEAD0001 7] = 1 :=
  C3_registry_only_invokes_once [(0xDEAD0001, incFn)] hostNoExport
    sampleCPU 0xDEAD0001 7 incFn rfl rfl

/-- C4: for an id absent from both tables, call_import returns (does not
crash) with host and CPU state unchanged and performs no program-counter
write, no native call, no status change and no notification; since
LOG_IMPORT_CALLS is false as shipped, the trace holds only the export
lookup. -/
theorem C4_double_miss_noop (registry : List (Nid × ImportFn))
    (host : HostState) (cpu : CPUState) (nid : Nid) (tid : SceUID)
    (hA : lookupKey nid host.kernel.export_nids = none)
    (hfn : resolve_import registry nid = none) :
    call_import registry host cpu nid tid =
      some (host, cpu, [Event.exportLookup nid]) ∧
    (∀ t a, Event.writePC t a ∉ [Event.exportLookup nid]) ∧
    (∀ n t, Event.callFn n t ∉ [Event.exportLookup nid]) ∧
    (∀ t v, Event.setToDo t v ∉ [Event.exportLookup nid]) ∧
    (∀ t, Event.notifyThread t ∉ [Event.exportLookup nid]) := by
  have hre := resolve_export_of_miss host.kernel nid hA
  refine ⟨?_, ?_, ?_, ?_, ?_⟩
  · have hcall : call_import registry host cpu nid tid =
        call_importWith false registry host cpu nid tid := rfl
    rw [hcall,
      call_importWith_HLE_miss false registry host cpu nid tid hre hfn]
    simp
  all_goals intros; simp

/-- Witness for C4: empty export table and empty registry, id 0x9999. -/
theorem C4_double_miss_noop_witness :
    call_import [] hostNoExport sampleCPU 0x9999 7 =
      some (hostNoExport, sampleCPU, [Event.exportLookup 0x9999]) ∧
    (∀ t a, Event.writePC t a ∉ [Event.exportLookup 0x9999]) ∧
    (∀ n t, Event.callFn n t ∉ [Event.exportLookup 0x9999]) ∧
    (∀ t v, Event.setToDo t v ∉ [Event.exportLookup 0x9999]) ∧
    (∀ t, Event.notifyThread t ∉ [Event.exportLookup 0x9999]) :=
  C4_double_miss_noop [] hostNoExport sampleCPU 0x9999 7 rfl rfl

/-- Characterisation of resume_thread on a waiting thread. -/
theorem resume_thread_wait (kernel : KernelState) (tid : SceUID)
    (th : ThreadState) (hth : lookupKey tid kernel.threads = some th)
    (hw : th.to_do = ThreadToDo.wait) :
    resume_thread kernel tid =
      some ({ kernel with
              threads := setThread kernel.threads tid
                { th with to_do := ThreadToDo.run } },
        [Event.lock LockId.kernelMutex, Event.unlock LockId.kernelMutex,
         Event.lock (LockId.threadMutex tid),
         Event.setToDo tid ThreadToDo.run,
         Event.notifyThread tid,
         Event.unlock (LockId.threadMutex tid)]) := by
  simp [resume_thread, hth, hw]

/-- Characterisation of resume_thread on a thread that is not waiting. -/
theorem resume_thread_not_wait (kernel : KernelState) (tid : SceUID)
    (th : ThreadState) (hth : lookupKey tid kernel.threads = some th)
    (hw : th.to_do ≠ ThreadToDo.wait) :
    resume_thread kernel tid =
      some (kernel,
        [Event.lock LockId.kernelMutex, Event.unlock LockId.kernelMutex,
         Event.lock (LockId.threadMutex tid),
         Event.notifyThread tid,
         Event.unlock (LockId.threadMutex tid)]) := by
  simp [resume_thread, hth, hw]

/-- C5: resuming a thread whose to_do is wait sets its to_do to run, that
write happens while the thread's own mutex is held, and the wait-to-run
transition is immediately followed by a notification on that same thread's
condition variable (the setToDo event at index 3 of the trace occurs with
the thread mutex held and is followed at index 4 by the notify event). -/
theorem C5_resume_wait_runs_and_notifies (kernel : KernelState)
    (tid : SceUID) (th : ThreadState)
    (hth : lookupKey tid kernel.threads = some th)
    (hw : th.to_do = ThreadToDo.wait) :
    ∃ k2 tr,
      resume_thread kernel tid = some (k2, tr) ∧
      lookupKey tid k2.threads = some { th with to_do := ThreadToDo.run } ∧
      tr.get? 3 = some (Event.setToDo tid ThreadToDo.run) ∧
      heldAt tr 3 = [LockId.threadMutex tid] ∧
      tr.get? 4 = some (Event.notifyThread tid) := by
  refine ⟨_, _, resume_thread_wait kernel tid th hth hw, ?_, ?_, ?_, ?_⟩
  · simp [lookupKey_setThread_self, hth]
  · rfl
  · rfl
  · rfl

/-- Witness for C5: a single thread with id 1 parked in wait. -/
theorem C5_resume_wait_runs_and_notifies_witness :
    ∃ k2 tr,
      resume_thread
        { export_nids := [],
          threads := [(1, { cpu := { pc := 0, regs := [] },
                            to_do := ThreadToDo.wait })] } 1 = some (k2, tr) ∧
      lookupKey 1 k2.threads =
        some { cpu := { pc := 0, regs := [] }, to_do := ThreadToDo.run } ∧
      tr.get? 3 = some (Event.setToDo 1 ThreadToDo.run) ∧
      heldAt tr 3 = [LockId.threadMutex 1] ∧
      tr.get? 4 = some (Event.notifyThread 1) :=
  C5_resume_wait_runs_and_notifies
    { export_nids := [],
      threads := [(1, { cpu := { pc := 0, regs := [] },
                        to_do := ThreadToDo.wait })] } 1
    { cpu := { pc := 0, regs := [] }, to_do := ThreadToDo.wait } rfl rfl

/-- C6 counterexample: resuming a thread whose to_do is run is not a
no-op — the source calls notify_all unconditionally, outside the
to_do == wait conditional, so a notification on the thread's condition
variable is emitted even though to_do is run. -/
theorem C6_resume_not_noop_counterexample :
    ∃ tr, resume_thread runKernel 1 = some (runKernel, tr) ∧
      Event.notifyThread 1 ∈ tr ∧ tr ≠ [] :=
  ⟨[Event.lock LockId.kernelMutex, Event.unlock LockId.kernelMutex,
    Event.lock (LockId.threadMutex 1),
    Event.notifyThread 1,
    Event.unlock (LockId.threadMutex 1)],
   by decide, by decide, by decide⟩

/-- C6 amended: resuming a thread whose to_do is run or stop leaves the
kernel state (in particular that thread's to_do) unchanged and never
blocks (no condition-variable wait is performed), so it is idempotent on
thread state — but it is not a complete no-op: the thread's condition
variable is still notified, the notify_all in the source being
unconditional. -/
theorem C6_resume_run_stop_state_unchanged (kernel : KernelState)
    (tid : SceUID) (th : ThreadState)
    (hth : lookupKey tid kernel.threads = some th)
    (hrs : th.to_do = ThreadToDo.run ∨ th.to_do = ThreadToDo.stop) :
    ∃ tr,
      resume_thread kernel tid = some (kernel, tr) ∧
      (∀ t, Event.condWait t ∉ tr) ∧
      (∀ t v, Event.setToDo t v ∉ tr) ∧
      Event.notifyThread tid ∈ tr := by
  have hw : th.to_do ≠ ThreadToDo.wait := by
    rcases hrs with h | h <;> simp [h]
  refine ⟨_, resume_thread_not_wait kernel tid th hth hw, ?_, ?_, ?_⟩
  · intro t
    simp
  · intro t v
    simp
  · simp

/-- Witness for C6 amended: the run-state thread of runKernel. -/
theorem C6_resume_run_stop_state_unchanged_witness :
    ∃ tr,
      resume_thread runKernel 1 = some (runKernel, tr) ∧
      (∀ t, Event.condWait t ∉ tr) ∧
      (∀ t v, Event.setToDo t v ∉ tr) ∧
      Event.notifyThread 1 ∈ tr :=
  C6_resume_run_stop_state_unchanged runKernel 1
    { cpu := { pc := 0, regs := [] }, to_do := ThreadToDo.run }
    rfl (Or.inl rfl)

theorem lookupKey_map_stop (ts : List (SceUID × ThreadState))
    (tid : SceUID) :
    lookupKey tid
      (ts.map (fun p => (p.1, { p.2 with to_do := ThreadToDo.stop }))) =
      (lookupKey tid ts).map (fun th => { th with to_do := ThreadToDo.stop }) := by
  induction ts with
  | nil => rfl
  | cons p rest ih =>
    obtain ⟨k, v⟩ := p
    by_cases hk : tid = k
    · subst hk
      simp [lookupKey]
    · simp [lookupKey, hk, ih]

theorem notify_mem_stop_events (ts : List (SceUID × ThreadState))
    (tid : SceUID) (th : ThreadState) (h : (tid, th) ∈ ts) :
    Event.notifyThread tid ∈ ts.flatMap (fun p =>
      [Event.lock (LockId.threadMutex p.1),
       Event.setToDo p.1 ThreadToDo.stop,
       Event.notifyThread p.1,
       Event.unlock (LockId.threadMutex p.1)]) := by
  induction ts with
  | nil => cases h
  | cons p rest ih =>
    rcases List.mem_cons.mp h with h2 | h2
    · subst h2
      simp
    · simp only [List.flatMap_cons]
      exact List.mem_append_right _ (ih h2)

/-- C7: a quit event triggers the broadcast abort path of handle_events —
distinct from single-thread resume: it walks the full thread registry,
stopping every thread and notifying every thread's condition variable
(hence every thread parked in wait is woken, regardless of its to_do
value), aborts the gxm display queue, sets the display abort flag,
notifies the display condition variable, and returns false. -/
theorem C7_quit_broadcast_abort (host : HostState)
    (rest : List SDLEvent) :
    ∃ h2 tr,
      handle_events host (SDLEvent.quit :: rest) = (false, h2, tr) ∧
      (∀ tid th, lookupKey tid host.kernel.threads = some th →
        lookupKey tid h2.kernel.threads =
          some { th with to_do := ThreadToDo.stop }) ∧
      (∀ tid th, (tid, th) ∈ host.kernel.threads →
        Event.notifyThread tid ∈ tr) ∧
      h2.display.abort = true ∧
      h2.gxm.display_queue_aborted = true ∧
      Event.notifyDisplay ∈ tr := by
  refine ⟨_, _, rfl, ?_, ?_, rfl, rfl, ?_⟩
  · intro tid th hth
    simp [handle_events, stop_all_threads, lookupKey_map_stop, hth]
  · intro tid th hmem
    exact List.mem_append_left _ (notify_mem_stop_events _ tid th hmem)
  · exact List.mem_append_right _ (List.mem_singleton.mpr rfl)

/-- Witness for C7: quit on a host with a waiting and a running thread. -/
theorem C7_quit_broadcast_abort_witness :
    ∃ h2 tr,
      handle_events twoThreadHost [SDLEvent.quit] = (false, h2, tr) ∧
      (∀ tid th, lookupKey tid twoThreadHost.kernel.threads = some th →
        lookupKey tid h2.kernel.threads =
          some { th with to_do := ThreadToDo.stop }) ∧
      (∀ tid th, (tid, th) ∈ twoThreadHost.kernel.threads →
        Event.notifyThread tid ∈ tr) ∧
      h2.display.abort = true ∧
      h2.gxm.display_queue_aborted = true ∧
      Event.notifyDisplay ∈ tr :=
  C7_quit_broadcast_abort twoThreadHost []

/-- C8 counterexample: with the shipped LOG_IMPORT_CALLS = false,
call_import on an id that resolves in neither table emits no logTrace
event at all — the diagnostic the claim requires is absent. -/
theorem C8_no_diagnostic_counterexample :
    call_import [] hostNoExport sampleCPU 0xDEAD 7 =
      some (hostNoExport, sampleCPU, [Event.exportLookup 0xDEAD]) ∧
    (∀ n t, Event.logTrace n t ∉ [Event.exportLookup (0xDEAD : Nid)]) := by
  constructor
  · rfl
  · intro n t
    simp

/-- C8 amended: the trace diagnostic carrying the numeric id and the
calling thread id is emitted on a double miss only when LOG_IMPORT_CALLS
is enabled; with the shipped value (false) no diagnostic is emitted. -/
theorem C8_diagnostic_only_when_enabled
    (registry : List (Nid × ImportFn)) (host : HostState) (cpu : CPUState)
    (nid : Nid) (tid : SceUID)
    (hA : resolve_export host.kernel nid = 0)
    (hfn : resolve_import registry nid = none) :
    (∃ tr, call_importWith true registry host cpu nid tid =
        some (host, cpu, tr) ∧ Event.logTrace nid tid ∈ tr) ∧
    (∃ tr, call_import registry host cpu nid tid =
        some (host, cpu, tr) ∧ ∀ n t, Event.logTrace n t ∉ tr) := by
  constructor
  · refine ⟨_, call_importWith_HLE_miss true registry host cpu nid tid hA hfn, ?_⟩
    simp
  · have hcall : call_import registry host cpu nid tid =
        call_importWith false registry host cpu nid tid := rfl
    refine ⟨_, hcall.trans
      (call_importWith_HLE_miss false registry host cpu nid tid hA hfn), ?_⟩
    intro n t
    simp

/-- Witness for C8 amended: empty tables, id 0xDEAD, thread 7. -/
theorem C8_diagnostic_only_when_enabled_witness :
    (∃ tr, call_importWith true [] hostNoExport sampleCPU 0xDEAD 7 =
        some (hostNoExport, sampleCPU, tr) ∧ Event.logTrace 0xDEAD 7 ∈ tr) ∧
    (∃ tr, call_import [] hostNoExport sampleCPU 0xDEAD 7 =
        some (hostNoExport, sampleCPU, tr) ∧ ∀ n t, Event.logTrace n t ∉ tr) :=
  C8_diagnostic_only_when_enabled [] hostNoExport sampleCPU 0xDEAD 7 rfl rfl

/-- C9 counterexample: resolving the spec-scenario export through
call_import performs the export-table lookup (the first event of the
trace) while holding no lock at all — resolve_export acquires no guard,
contradicting the claim that every export-table lookup happens under the
table's guarding lock. -/
theorem C9_lookup_without_lock_counterexample :
    ∃ h2 tr,
      call_import [] hostWithExport sampleCPU 0x1234 7 =
        some (h2, sampleCPU, tr) ∧
      tr.get? 0 = some (Event.exportLookup 0x1234) ∧
      heldAt tr 0 = [] := by
  refine ⟨_, _, rfl, rfl, rfl⟩

/-- Crash branch of call_importWith: nonzero export address but the
calling thread id is absent from the thread registry. -/
theorem call_importWith_crash (log : Bool)
    (registry : List (Nid × ImportFn)) (host : HostState) (cpu : CPUState)
    (nid : Nid) (tid : SceUID)
    (h0 : ¬ resolve_export host.kernel nid = 0)
    (hth : lookupKey tid host.kernel.threads = none) :
    call_importWith log registry host cpu nid tid = none := by
  simp only [call_importWith, if_neg h0, hth]

/-- C9 amended: no lock guards the export table — whenever call_import
returns, the export-table lookup is the very first event of its trace and
is performed with no lock held (in particular not under any guarding
lock); the locks the source does take come only later, on the LLE path. -/
theorem C9_export_lookup_unlocked (log : Bool)
    (registry : List (Nid × ImportFn)) (host : HostState) (cpu : CPUState)
    (nid : Nid) (tid : SceUID) (h2 : HostState) (c2 : CPUState)
    (tr : List Event)
    (h : call_importWith log registry host cpu nid tid = some (h2, c2, tr)) :
    tr.get? 0 = some (Event.exportLookup nid) ∧ heldAt tr 0 = [] := by
  by_cases h0 : resolve_export host.kernel nid = 0
  · cases hfn : resolve_import registry nid with
    | some fn =>
      rw [call_importWith_HLE_hit log registry host cpu nid tid fn h0 hfn] at h
      simp only [Option.some.injEq, Prod.mk.injEq] at h
      obtain ⟨-, -, htr⟩ := h
      subst htr
      exact ⟨rfl, rfl⟩
    | none =>
      rw [call_importWith_HLE_miss log registry host cpu nid tid h0 hfn] at h
      simp only [Option.some.injEq, Prod.mk.injEq] at h
      obtain ⟨-, -, htr⟩ := h
      subst htr
      exact ⟨rfl, rfl⟩
  · cases hth : lookupKey tid host.kernel.threads with
    | none =>
      rw [call_importWith_crash log registry host cpu nid tid h0 hth] at h
      cases h
    | some th =>
      rw [call_importWith_LLE log registry host cpu nid tid
        (resolve_export host.kernel nid) th rfl h0 hth] at h
      simp only [Option.some.injEq, Prod.mk.injEq] at h
      obtain ⟨-, -, htr⟩ := h
      subst htr
      exact ⟨rfl, rfl⟩

/-- Witness for C9 amended: the spec-scenario export hit. -/
theorem C9_export_lookup_unlocked_witness :
    ∃ h2 tr,
      call_import [] hostWithExport sampleCPU 0x1234 7 =
        some (h2, sampleCPU, tr) ∧
      tr.get? 0 = some (Event.exportLookup 0x1234) ∧
      heldAt tr 0 = [] :=
  ⟨_, _, rfl,
    C9_export_lookup_unlocked false [] hostWithExport sampleCPU 0x1234 7
      _ _ _ rfl⟩

/-- C10: resolve_export encodes not-found as the address 0 — it returns 0
both for an id absent from the export table and for an id registered with
address 0, so the two are indistinguishable to call_import; and whenever
resolve_export yields 0, call_import takes the HLE / no-op path: it never
writes a program counter, and it invokes the registry function when the
NID registry has one. -/
theorem C10_zero_address_sentinel :
    (∀ kernel nid, lookupKey nid kernel.export_nids = none →
      resolve_export kernel nid = 0) ∧
    (∀ kernel nid, lookupKey nid kernel.export_nids = some 0 →
      resolve_export kernel nid = 0) ∧
    (∀ log registry host cpu (nid : Nid) (tid : SceUID),
      resolve_export host.kernel nid = 0 →
      ∃ h2 c2 tr,
        call_importWith log registry host cpu nid tid = some (h2, c2, tr) ∧
        (∀ t a, Event.writePC t a ∉ tr) ∧
        ((resolve_import registry nid).isSome →
          Event.callFn nid tid ∈ tr)) := by
  refine ⟨?_, ?_, ?_⟩
  · intro kernel nid h
    exact resolve_export_of_miss kernel nid h
  · intro kernel nid h
    exact resolve_export_of_lookup kernel nid 0 h
  · intro log registry host cpu nid tid h0
    cases hfn : resolve_import registry nid with
    | some fn =>
      refine ⟨_, _, _,
        call_importWith_HLE_hit log registry host cpu nid tid fn h0 hfn,
        ?_, ?_⟩
      · intro t a
        cases log <;> simp
      · intro _
        cases log <;> simp
    | none =>
      refine ⟨_, _, _,
        call_importWith_HLE_miss log registry host cpu nid tid h0 hfn,
        ?_, ?_⟩
      · intro t a
        cases log <;> simp
      · intro hsome
        simp at hsome

/-- Witness for C10: id 0x1234 absent from hostNoExport and registered
with address 0 in hostZeroExport. -/
theorem C10_zero_address_sentinel_witness :
    resolve_export hostNoExport.kernel 0x1234 = 0 ∧
    resolve_export hostZeroExport.kernel 0x1234 = 0 ∧
    (∃ h2 c2 tr,
      call_importWith false [] hostZeroExport sampleCPU 0x1234 7 =
        some (h2, c2, tr) ∧
      (∀ t a, Event.writePC t a ∉ tr) ∧
      ((resolve_import [] 0x1234).isSome → Event.callFn 0x1234 7 ∈ tr)) :=
  ⟨C10_zero_address_sentinel.1 hostNoExport.kernel 0x1234 rfl,
   C10_zero_address_sentinel.2.1 hostZeroExport.kernel 0x1234 rfl,
   C10_zero_address_sentinel.2.2 false [] hostZeroExport sampleCPU
     0x1234 7 rfl⟩

end Vita3K
